import Mathlib

/-!
Shallow embedding of `tomography/plotting.py`: two interactive viewer
classes, `DataViewer` (stack browsing) and `Tomographyplot` (volume
exploration).  Pure state-passing model: each widget/figure is a record,
each event handler a function from state (plus event payload) to
`Except String` of a new state; Python `IndexError` paths become `.error`.
Values stored in the numeric arrays are opaque (type parameter `α`);
the matplotlib/ipywidgets libraries are treated as black-box providers
(`imshow` appends an image descriptor, `plot` appends a line, `display`
and colorbars have no modelled effect beyond what the code manipulates).
-/

namespace Tomography

/-- Python `int()` applied to a (real) coordinate: truncation toward zero. -/
def pyInt (q : ℚ) : ℤ :=
  if 0 ≤ q then Int.floor q else -(Int.floor (-q))

/-- Numpy index resolution along one axis of length `n`: indices in
`[0, n)` are taken as-is, indices in `[-n, 0)` wrap around, everything
else raises `IndexError` (here: `none`). -/
def npIndex (n : Nat) (i : ℤ) : Option Nat :=
  if 0 ≤ i ∧ i < (n : ℤ) then some i.toNat
  else if -(n : ℤ) ≤ i ∧ i < 0 then some (i + (n : ℤ)).toNat
  else none

/-- Python list indexing `l[i]` (negative indices wrap). -/
def pyListGet (l : List β) (i : ℤ) : Option β :=
  (npIndex l.length i).bind (fun k => l.get? k)

/-- Python `range(lo, hi)` as a list of integers. -/
def pyRange (lo hi : ℤ) : List ℤ :=
  (List.range (hi - lo).toNat).map (fun k => lo + (k : ℤ))

/-- Model of `os.path.basename`: the part of the path after the last `/`. -/
def basename (s : String) : String :=
  String.mk ((s.data.reverse.takeWhile (fun c => c != '/')).reverse)

/-- Convert `Option` lookups to the `Except` error discipline used by the
handler embeddings (a failed lookup is a Python `IndexError`). -/
def toE (o : Option β) : Except String β :=
  match o with
  | some b => Except.ok b
  | none => Except.error "IndexError: index out of bounds"

instance {ε β : Type} [DecidableEq ε] [DecidableEq β] :
    DecidableEq (Except ε β) := fun a b =>
  match a, b with
  | Except.ok x, Except.ok y =>
    if h : x = y then Decidable.isTrue (by rw [h])
    else Decidable.isFalse (fun hc => h (Except.ok.inj hc))
  | Except.error x, Except.error y =>
    if h : x = y then Decidable.isTrue (by rw [h])
    else Decidable.isFalse (fun hc => h (Except.error.inj hc))
  | Except.ok _, Except.error _ => Decidable.isFalse (fun hc => by cases hc)
  | Except.error _, Except.ok _ => Decidable.isFalse (fun hc => by cases hc)

/-- Decimal digit characters, most significant first, by repeated
division (structural recursion on a fuel bound). -/
def natCharsAux : Nat → Nat → List Char
  | 0, _ => []
  | fuel + 1, n =>
    if n = 0 then [] else natCharsAux fuel (n / 10) ++ [Nat.digitChar (n % 10)]

/-- Decimal digit characters of `n`, most significant first (empty for 0). -/
def natStrChars (n : Nat) : List Char :=
  natCharsAux n n

/-- Left-pad a character list with `'0'` to width `w`. -/
def padZeros (w : Nat) (l : List Char) : List Char :=
  List.replicate (w - l.length) '0' ++ l

/-- Python `'{:03}'.format(z)` for an int `z`: minimum field width 3,
zero-padded, the sign counting toward the width. -/
def intFmt03 (z : ℤ) : List Char :=
  if z < 0 then '-' :: padZeros 2 (natStrChars z.natAbs)
  else padZeros 3 (natStrChars z.toNat)

/-- The profile-line label `'rg: {0:03}; az: {1:03}'.format(rg, az)`. -/
def clickLabel (rg az : ℤ) : String :=
  String.mk ("rg: ".data ++ intFmt03 rg ++ "; az: ".data ++ intFmt03 az)

/-- A 3-D numeric array `[axis0, axis1, axis2]` (numpy `ndarray`). -/
structure Array3 (α : Type) where
  shape0 : Nat
  shape1 : Nat
  shape2 : Nat
  data : Nat → Nat → Nat → α

/-- The numpy `.shape` tuple. -/
def Array3.shape (a : Array3 α) : Nat × Nat × Nat :=
  (a.shape0, a.shape1, a.shape2)

/-- An `ipywidgets.IntSlider` configuration. -/
structure IntSliderW where
  min : ℤ
  max : ℤ
  step : ℤ
deriving DecidableEq

/-- An axes panel that only shows one image and a title
(the three panels of `DataViewer`).  `image` records the frame index of
the slice currently displayed. -/
structure ImAx where
  title : String
  image : Option Nat
deriving DecidableEq

/-- State of a `DataViewer` instance after `__init__`. -/
structure DVState (α : Type) where
  slc_list : List String
  phase_list : List String
  kz_list : List String
  slc_stack : Array3 α
  phase_stack : Array3 α
  kz_stack : Array3 α
  slider : IntSliderW
  ax1 : ImAx
  ax2 : ImAx
  ax3 : ImAx

/-- Embedding of `DataViewer.__init__`: store the six inputs, build the file-number
slider over `[1, len(slc_list) - 1]` with step 1, and create the three
(initially empty) panels.  The initial `interactive_output` firing is a
widget-library effect and is not part of the construction state. -/
def DataViewer.init (slc_list phase_list kz_list : List String)
    (slc_stack phase_stack kz_stack : Array3 α) : DVState α :=
  { slc_list := slc_list
    phase_list := phase_list
    kz_list := kz_list
    slc_stack := slc_stack
    phase_stack := phase_stack
    kz_stack := kz_stack
    slider := { min := 1, max := (slc_list.length : ℤ) - 1, step := 1 }
    ax1 := { title := "", image := none }
    ax2 := { title := "", image := none }
    ax3 := { title := "", image := none } }

/-- Embedding of `DataViewer.onslide(h)`: resolve the SLC name at list index `h` and
the phase/wavenumber names at list index `h - 1`, set the three panel
titles from them, and display frame `h` of each of the three stacks
(log-scaling and percentile stretching act on the displayed values only
and are not recorded in the panel state). -/
def DataViewer.onslide (v : DVState α) (h : ℤ) : Except String (DVState α) :=
  match pyListGet v.slc_list h, pyListGet v.phase_list (h - 1),
      pyListGet v.kz_list (h - 1), npIndex v.slc_stack.shape2 h,
      npIndex v.phase_stack.shape2 h, npIndex v.kz_stack.shape2 h with
  | some slc_name, some phase_name, some kz_name, some i1, some i2, some i3 =>
    Except.ok { v with
      ax1 := { title := "SLC intensity: " ++ basename slc_name, image := some i1 }
      ax2 := { title := "phase: " ++ basename phase_name, image := some i2 }
      ax3 := { title := "wavenumber: " ++ basename kz_name, image := some i3 } }
  | _, _, _, _, _, _ => Except.error "IndexError: index out of bounds"

/-- A plotted vertical-profile line on the profile panel
(`ax2.plot(xdata, ydata, label=label)`). -/
structure Line (α : Type) where
  xdata : List α
  ydata : List ℤ
  label : String
deriving DecidableEq

/-- The horizontal-slice panel (`ax1`) of `Tomographyplot`: the stack of
displayed images (height-slice indices, in draw order), title and axis
labels.  The crosshair lines live in `TomoState` (`lhor_y` / `lver_x`). -/
structure Ax1State where
  images : List Nat
  title : String
  xlabel : String
  ylabel : String
deriving DecidableEq

/-- The vertical-profile panel (`ax2`) of `Tomographyplot`. -/
structure Ax2State (α : Type) where
  lines : List (Line α)
  title : String
  xlabel : String
  ylabel : String
  ylim : ℤ × ℤ
deriving DecidableEq

/-- Effect of `ax.cla()` on the profile panel: everything reset to matplotlib
defaults (no lines, empty labels/title, unit y-limits). -/
def Ax2State.cla : Ax2State α :=
  { lines := [], title := "", xlabel := "", ylabel := "", ylim := (0, 1) }

/-- A range/azimuth-slice panel (`ax3`/`ax4`) of `Tomographyplot`:
displayed images (the fixed azimuth resp. range line of each drawn
slice, in draw order), title, x-limits and the y-tick setup. -/
structure Ax34State where
  images : List Nat
  title : String
  xlim : ℚ × ℚ
  yticks : List ℚ
  yticklabels : List ℤ
deriving DecidableEq

/-- A matplotlib `button_press_event` payload, as far as `onclick` reads
it: whether `event.inaxes` is the horizontal-slice panel, and the data
coordinates `event.xdata` / `event.ydata`. -/
structure Event where
  inax1 : Bool
  xdata : ℚ
  ydata : ℚ
deriving DecidableEq

/-- State of a `Tomographyplot` instance after a successful `__init__`. -/
structure TomoState (α : Type) where
  capon_bf_abs : Array3 α
  caponnorm : Array3 α
  height : Nat
  slider : IntSliderW
  checkbox : Bool
  ax1 : Ax1State
  ax2 : Ax2State α
  ax3 : Ax34State
  ax4 : Ax34State
  lhor_y : ℤ
  lver_x : ℤ

/-- Embedding of `Tomographyplot.init_vertical_plot()`: clear the profile panel if
any lines have been drawn on it, then restore the axis labels, the title
and the y-limits `(-height, height)`. -/
def Tomographyplot.init_vertical_plot (s : TomoState α) : TomoState α :=
  let ax2 := if 0 < s.ax2.lines.length then Ax2State.cla else s.ax2
  { s with ax2 := { ax2 with
      ylabel := "height [m]"
      xlabel := "reflectivity"
      title := "vertical point profiles"
      ylim := (-(s.height : ℤ), (s.height : ℤ)) } }

/-- Embedding of `Tomographyplot.__init__(capon_bf_abs, caponnorm)`: raise
`RuntimeError('mismatch of input arrays')` when the two shapes differ,
otherwise set `height = shape[2] // 2`, build the widgets (height slider
over `[-height, height]` with step 10, stacking checkbox defaulting to
`True`, clear button), the four panels with their x-limits and the
hard-coded five-point y-tick scheme on `ax3`/`ax4`, run
`init_vertical_plot`, and place the crosshair at `(0, 0)`.  The initial
`interactive_output` firing of `onslide` is a widget-library effect and
is not part of the construction state. -/
def Tomographyplot.init (capon_bf_abs caponnorm : Array3 α) :
    Except String (TomoState α) :=
  if caponnorm.shape = capon_bf_abs.shape then
    let height : Nat := capon_bf_abs.shape2 / 2
    let ytick_lab : List ℤ :=
      [-(height : ℤ), Int.fdiv (-(height : ℤ)) 2, 0,
        Int.fdiv (height : ℤ) 2, (height : ℤ)]
    let ytick_pos : List ℚ :=
      [0, (height : ℚ) / 2, (height : ℚ),
        (height : ℚ) + (height : ℚ) / 2, (height : ℚ) * 2]
    Except.ok (Tomographyplot.init_vertical_plot
      { capon_bf_abs := capon_bf_abs
        caponnorm := caponnorm
        height := height
        slider := { min := -(height : ℤ), max := (height : ℤ), step := 10 }
        checkbox := true
        ax1 := { images := [], title := "", xlabel := "", ylabel := "" }
        ax2 := { lines := [], title := "", xlabel := "", ylabel := "", ylim := (0, 1) }
        ax3 := { images := [], title := "", xlim := (0, (capon_bf_abs.shape1 : ℚ)),
                 yticks := ytick_pos, yticklabels := ytick_lab }
        ax4 := { images := [], title := "", xlim := (0, (capon_bf_abs.shape0 : ℚ)),
                 yticks := ytick_pos, yticklabels := ytick_lab }
        lhor_y := 0
        lver_x := 0 })
  else Except.error "mismatch of input arrays"

/-- Embedding of `Tomographyplot.reset_crosshair(range, azimuth)`: move the
horizontal crosshair line to `azimuth` and the vertical one to `range`. -/
def Tomographyplot.reset_crosshair (s : TomoState α) (range azimuth : ℤ) :
    TomoState α :=
  { s with lhor_y := azimuth, lver_x := range }

/-- Embedding of `Tomographyplot.onslide(h)`: display `caponnorm[:, :, height - h]`
on the horizontal-slice panel, set its labels and title, and drop the
oldest image (with its colorbar) once more than one is present. -/
def Tomographyplot.onslide (s : TomoState α) (h : ℤ) :
    Except String (TomoState α) :=
  match npIndex s.caponnorm.shape2 ((s.height : ℤ) - h) with
  | some k =>
    let images := s.ax1.images ++ [k]
    let images := if 1 < images.length then images.drop 1 else images
    Except.ok { s with ax1 :=
      { images := images
        xlabel := "range", ylabel := "azimuth"
        title := "horizontal slice at height " ++ toString h ++ " m" } }
  | none => Except.error "IndexError: index out of bounds"

/-- Embedding of `Tomographyplot.onclick(event)`: a no-op unless the click lies in
the horizontal-slice panel; otherwise truncate the click coordinates to
integers `(rg, az)`, reset the crosshair there, subset the two volumes,
clear the profile panel when stacking is disabled, append the labelled
vertical-profile line (`x` data flipped upside-down, `y` data
`range(-height, height + 1)`), and draw the range and azimuth slices
with their titles.  Any failing numpy index resolution is the
`IndexError` the corresponding subset expression would raise. -/
def Tomographyplot.onclick (s : TomoState α) (e : Event) :
    Except String (TomoState α) :=
  if e.inax1 then
    let rg : ℤ := pyInt e.xdata
    let az : ℤ := pyInt e.ydata
    let s1 := Tomographyplot.reset_crosshair s rg az
    match npIndex s1.capon_bf_abs.shape0 az, npIndex s1.capon_bf_abs.shape1 rg,
        npIndex s1.caponnorm.shape0 az, npIndex s1.caponnorm.shape1 rg with
    | some azV, some rgV, some azN, some rgN =>
      let subset_vertical : List α :=
        List.ofFn (fun k : Fin s1.capon_bf_abs.shape2 =>
          s1.capon_bf_abs.data azV rgV k.val)
      let s2 := if s1.checkbox then s1 else Tomographyplot.init_vertical_plot s1
      let line : Line α :=
        { xdata := subset_vertical.reverse,
          ydata := pyRange (-(s2.height : ℤ)) ((s2.height : ℤ) + 1),
          label := clickLabel rg az }
      Except.ok { s2 with
        ax2 := { s2.ax2 with lines := s2.ax2.lines ++ [line] }
        ax3 := { s2.ax3 with
          images := s2.ax3.images ++ [azN]
          title := "range slice at azimuth line " ++ toString az }
        ax4 := { s2.ax4 with
          images := s2.ax4.images ++ [rgN]
          title := "azimuth slice at range line " ++ toString rg } }
    | _, _, _, _ => Except.error "IndexError: index out of bounds"
  else Except.ok s

/-- A sequence of click events processed in order. -/
def Tomographyplot.onclicks (s : TomoState α) (es : List Event) :
    Except String (TomoState α) :=
  es.foldlM Tomographyplot.onclick s

/-! ### Derived notions used in the statements and proofs -/

/-- Decimal value of a digit character. -/
def digitVal (c : Char) : Nat := c.toNat - '0'.toNat

/-- Read a big-endian list of decimal digit characters back as a number
(leading zeros are allowed and do not change the value). -/
def parseNat (l : List Char) : Nat :=
  l.foldl (fun a c => a * 10 + digitVal c) 0

/-- The click coordinates after Python's `int()` truncation:
`(rg, az) = (int(event.xdata), int(event.ydata))`. -/
def eventCoords (e : Event) : ℤ × ℤ := (pyInt e.xdata, pyInt e.ydata)

/-- The label the profile line of a click carries. -/
def eventLabel (e : Event) : String :=
  clickLabel (pyInt e.xdata) (pyInt e.ydata)

/-- A click event is fully processable in state `s`: it hits the
horizontal-slice panel and all four numpy index resolutions of the
subset expressions succeed. -/
def clickOK (s : TomoState α) (e : Event) : Prop :=
  e.inax1 = true
  ∧ (npIndex s.capon_bf_abs.shape0 (pyInt e.ydata)).isSome = true
  ∧ (npIndex s.capon_bf_abs.shape1 (pyInt e.xdata)).isSome = true
  ∧ (npIndex s.caponnorm.shape0 (pyInt e.ydata)).isSome = true
  ∧ (npIndex s.caponnorm.shape1 (pyInt e.xdata)).isSome = true

instance (s : TomoState α) (e : Event) : Decidable (clickOK s e) := by
  unfold clickOK; exact inferInstance

/-- The vertical-profile line a click appends: the flipped vertical
subset `capon_bf_abs[az, rg, :]` plotted against
`range(-height, height + 1)`, labelled with the click coordinates. -/
def clickLine (s : TomoState α) (e : Event) (azV rgV : Nat) : Line α :=
  { xdata := (List.ofFn (fun k : Fin s.capon_bf_abs.shape2 =>
      s.capon_bf_abs.data azV rgV k.val)).reverse
    ydata := pyRange (-(s.height : ℤ)) ((s.height : ℤ) + 1)
    label := clickLabel (pyInt e.xdata) (pyInt e.ydata) }

/-- The successful branch of `onclick`, with the four resolved numpy
indices made explicit (used to state the unfolding lemma). -/
def clickStep (s : TomoState α) (e : Event) (azV rgV azN rgN : Nat) :
    TomoState α :=
  let rg : ℤ := pyInt e.xdata
  let az : ℤ := pyInt e.ydata
  let s1 := Tomographyplot.reset_crosshair s rg az
  let s2 := if s1.checkbox then s1 else Tomographyplot.init_vertical_plot s1
  { s2 with
    ax2 := { s2.ax2 with lines := s2.ax2.lines ++ [clickLine s e azV rgV] }
    ax3 := { s2.ax3 with
      images := s2.ax3.images ++ [azN]
      title := "range slice at azimuth line " ++ toString az }
    ax4 := { s2.ax4 with
      images := s2.ax4.images ++ [rgN]
      title := "azimuth slice at range line " ++ toString rg } }

/-- The profile panel in its pristine state for half-height `H`
(what construction produces and what the clear action restores). -/
def emptyProfile {α : Type} (H : Nat) : Ax2State α :=
  { lines := []
    title := "vertical point profiles"
    xlabel := "reflectivity"
    ylabel := "height [m]"
    ylim := (-(H : ℤ), (H : ℤ)) }

/-! ### Concrete fixtures for the witness and counterexample theorems -/

/-- A `(10, 10, 8)`-shaped volume (spec's shape-mismatch example). -/
def exVol8 : Array3 Int := ⟨10, 10, 8, fun _ _ _ => 0⟩

/-- A `(10, 10, 9)`-shaped volume (spec's shape-mismatch example). -/
def exVol9 : Array3 Int := ⟨10, 10, 9, fun _ _ _ => 0⟩

/-- A `(2, 3, 10)`-shaped volume: even height axis, half-height 5. -/
def exA10 : Array3 Int := ⟨2, 3, 10, fun _ _ _ => 0⟩

/-- A `(2, 3, 11)`-shaped volume: odd height axis, half-height 5. -/
def exA11 : Array3 Int := ⟨2, 3, 11, fun _ _ _ => 0⟩

/-- The state `Tomographyplot.init exA10 exA10` constructs. -/
def exS10 : TomoState Int :=
  { capon_bf_abs := exA10
    caponnorm := exA10
    height := 5
    slider := { min := -5, max := 5, step := 10 }
    checkbox := true
    ax1 := { images := [], title := "", xlabel := "", ylabel := "" }
    ax2 := { lines := [], title := "vertical point profiles",
             xlabel := "reflectivity", ylabel := "height [m]", ylim := (-5, 5) }
    ax3 := { images := [], title := "", xlim := (0, 3)
             yticks := [0, 5 / 2, 5, 5 + 5 / 2, 5 * 2]
             yticklabels := [-5, -3, 0, 2, 5] }
    ax4 := { images := [], title := "", xlim := (0, 2)
             yticks := [0, 5 / 2, 5, 5 + 5 / 2, 5 * 2]
             yticklabels := [-5, -3, 0, 2, 5] }
    lhor_y := 0
    lver_x := 0 }

/-- The state `Tomographyplot.init exA11 exA11` constructs. -/
def exS11 : TomoState Int :=
  { capon_bf_abs := exA11
    caponnorm := exA11
    height := 5
    slider := { min := -5, max := 5, step := 10 }
    checkbox := true
    ax1 := { images := [], title := "", xlabel := "", ylabel := "" }
    ax2 := { lines := [], title := "vertical point profiles",
             xlabel := "reflectivity", ylabel := "height [m]", ylim := (-5, 5) }
    ax3 := { images := [], title := "", xlim := (0, 3)
             yticks := [0, 5 / 2, 5, 5 + 5 / 2, 5 * 2]
             yticklabels := [-5, -3, 0, 2, 5] }
    ax4 := { images := [], title := "", xlim := (0, 2)
             yticks := [0, 5 / 2, 5, 5 + 5 / 2, 5 * 2]
             yticklabels := [-5, -3, 0, 2, 5] }
    lhor_y := 0
    lver_x := 0 }

/-- State `exS11` with the stacking checkbox unticked. -/
def exS11n : TomoState Int := { exS11 with checkbox := false }

/-- A click at fractional position `(1/2, 1/2)` inside the panel. -/
def exE1 : Event := ⟨true, mkRat 1 2, mkRat 1 2⟩

/-- A click at fractional position `(3/2, 1/2)` inside the panel. -/
def exE2 : Event := ⟨true, mkRat 3 2, mkRat 1 2⟩

/-- A click outside the horizontal-slice panel. -/
def exEout : Event := ⟨false, mkRat 1 2, mkRat 1 2⟩

/-- Example SLC file list for the `DataViewer` witness. -/
def exSlc : List String := ["data/a0.slc", "data/a1.slc"]

/-- Example topographic-phase file list for the `DataViewer` witness. -/
def exPhase : List String := ["data/p0.ph", "data/p1.ph"]

/-- Example wavenumber file list for the `DataViewer` witness. -/
def exKz : List String := ["data/k0.kz", "data/k1.kz"]

/-- Example stack with two frames for the `DataViewer` witness. -/
def exStk : Array3 Int := ⟨4, 4, 2, fun _ _ _ => 0⟩

/-! ## Helper lemmas -/

theorem npIndex_of_nonneg {n : Nat} {i : ℤ} (h0 : 0 ≤ i) (hlt : i < (n : ℤ)) :
    npIndex n i = some i.toNat := by
  unfold npIndex
  rw [if_pos ⟨h0, hlt⟩]

theorem npIndex_none_of_ge {n : Nat} {i : ℤ} (h0 : 0 ≤ i) (hge : (n : ℤ) ≤ i) :
    npIndex n i = none := by
  unfold npIndex
  rw [if_neg (by omega), if_neg (by omega)]

theorem pyListGet_eq {β : Type} (l : List β) (i : ℤ) (d : β)
    (h0 : 0 ≤ i) (hlt : i < (l.length : ℤ)) :
    pyListGet l i = some (l.getD i.toNat d) := by
  unfold pyListGet
  rw [npIndex_of_nonneg h0 hlt]
  have hl : i.toNat < l.length := by omega
  rw [Option.some_bind, List.getD_eq_getElem?_getD, List.get?_eq_get hl]
  simp [List.getElem?_eq_getElem hl]

theorem pyInt_of_nonneg {q : ℚ} (h : 0 ≤ q) : pyInt q = Int.floor q := by
  unfold pyInt
  rw [if_pos h]

theorem pyInt_of_neg {q : ℚ} (h : q < 0) : pyInt q = -(Int.floor (-q)) := by
  unfold pyInt
  rw [if_neg (not_le.mpr h)]

/-- Unpacking of a successful `Tomographyplot.init`: the shape test
passed and every component of the state is as constructed. -/
theorem init_ok_fields {α : Type} {a b : Array3 α} {s : TomoState α}
    (hinit : Tomographyplot.init a b = Except.ok s) :
    b.shape = a.shape
    ∧ s.capon_bf_abs = a
    ∧ s.caponnorm = b
    ∧ s.height = a.shape2 / 2
    ∧ s.slider = { min := -(s.height : ℤ), max := (s.height : ℤ), step := 10 }
    ∧ s.checkbox = true
    ∧ s.ax1 = { images := [], title := "", xlabel := "", ylabel := "" }
    ∧ s.ax2 = emptyProfile s.height
    ∧ s.ax3 = { images := [], title := "", xlim := (0, (a.shape1 : ℚ))
                yticks := [0, (s.height : ℚ) / 2, (s.height : ℚ),
                  (s.height : ℚ) + (s.height : ℚ) / 2, (s.height : ℚ) * 2]
                yticklabels := [-(s.height : ℤ), Int.fdiv (-(s.height : ℤ)) 2, 0,
                  Int.fdiv (s.height : ℤ) 2, (s.height : ℤ)] }
    ∧ s.ax4 = { images := [], title := "", xlim := (0, (a.shape0 : ℚ))
                yticks := [0, (s.height : ℚ) / 2, (s.height : ℚ),
                  (s.height : ℚ) + (s.height : ℚ) / 2, (s.height : ℚ) * 2]
                yticklabels := [-(s.height : ℤ), Int.fdiv (-(s.height : ℤ)) 2, 0,
                  Int.fdiv (s.height : ℤ) 2, (s.height : ℤ)] }
    ∧ s.lhor_y = 0 ∧ s.lver_x = 0 := by
  unfold Tomographyplot.init at hinit
  split at hinit
  case isTrue hsh =>
    have hs := (Except.ok.inj hinit).symm
    subst hs
    exact ⟨hsh, rfl, rfl, rfl, rfl, rfl, rfl, rfl, rfl, rfl, rfl, rfl⟩
  case isFalse hsh =>
    exact absurd hinit (by simp)

/-! ## C1: shape mismatch fails construction -/

/-- C1: for every pair of 3-D input volumes whose shapes differ,
`Tomographyplot.__init__` fails with the shape-mismatch error before any
widget or figure is created, producing no partially constructed state. -/
theorem init_shape_mismatch_fails {α : Type} (capon_bf_abs caponnorm : Array3 α)
    (hne : caponnorm.shape ≠ capon_bf_abs.shape) :
    Tomographyplot.init capon_bf_abs caponnorm
      = Except.error "mismatch of input arrays" := by
  unfold Tomographyplot.init
  rw [if_neg hne]

/-- Witness for C1 at the spec's example shapes `(10,10,8)` vs `(10,10,9)`. -/
theorem init_shape_mismatch_fails_witness :
    exVol9.shape ≠ exVol8.shape
    ∧ Tomographyplot.init exVol8 exVol9
        = Except.error "mismatch of input arrays" :=
  ⟨by decide, init_shape_mismatch_fails exVol8 exVol9 (by decide)⟩

/-! ## C9: clicks outside the horizontal-slice panel are no-ops -/

/-- C9: for every click event outside the horizontal-slice panel,
`onclick` leaves the whole state (crosshair, profile lines, slice
panels) unchanged. -/
theorem onclick_outside_noop {α : Type} (s : TomoState α) (e : Event)
    (he : e.inax1 = false) :
    Tomographyplot.onclick s e = Except.ok s := by
  unfold Tomographyplot.onclick
  simp [he]

/-- Witness for C9: a concrete outside click on a concrete state. -/
theorem onclick_outside_noop_witness :
    Tomographyplot.onclick exS10 exEout = Except.ok exS10 :=
  onclick_outside_noop exS10 exEout rfl

/-! ## C3: slider-to-array height mapping of `onslide` -/

/-- C3: for every height-slider value `h` in `[-H, H]` whose mapped index
is in range, `onslide` displays the horizontal slice at array index
`H - h`; in particular the mapping sends `h = H` to index 0 and
`h = -H` to index `2H`. -/
theorem onslide_height_mapping {α : Type} (a b : Array3 α) (s : TomoState α)
    (hinit : Tomographyplot.init a b = Except.ok s)
    (h : ℤ) (hlo : -(s.height : ℤ) ≤ h) (hhi : h ≤ (s.height : ℤ))
    (hin : (s.height : ℤ) - h < (b.shape2 : ℤ)) :
    s.height = a.shape2 / 2
    ∧ s.slider = { min := -(s.height : ℤ), max := (s.height : ℤ), step := 10 }
    ∧ (Tomographyplot.onslide s h).map (fun t => t.ax1.images.getLast?)
        = Except.ok (some ((s.height : ℤ) - h).toNat)
    ∧ (h = (s.height : ℤ) → ((s.height : ℤ) - h).toNat = 0)
    ∧ (h = -(s.height : ℤ) → ((s.height : ℤ) - h).toNat = 2 * s.height) := by
  obtain ⟨hsh, hcap, hnorm, hh, hslider, hcb, hax1, _⟩ := init_ok_fields hinit
  refine ⟨hh, hslider, ?_, by omega, by omega⟩
  unfold Tomographyplot.onslide
  rw [hnorm, npIndex_of_nonneg (by omega) hin, hax1]
  simp [Except.map]

/-- Witness for C3: odd-height volume (`shape2 = 11`, `H = 5`) at the
slider minimum `h = -5`, which maps to array index 10. -/
theorem onslide_height_mapping_witness :
    exS11.height = exA11.shape2 / 2
    ∧ exS11.slider
        = { min := -(exS11.height : ℤ), max := (exS11.height : ℤ), step := 10 }
    ∧ (Tomographyplot.onslide exS11 (-5)).map (fun t => t.ax1.images.getLast?)
        = Except.ok (some ((exS11.height : ℤ) - (-5)).toNat)
    ∧ ((-5 : ℤ) = (exS11.height : ℤ) → ((exS11.height : ℤ) - (-5)).toNat = 0)
    ∧ ((-5 : ℤ) = -(exS11.height : ℤ) →
        ((exS11.height : ℤ) - (-5)).toNat = 2 * exS11.height) :=
  onslide_height_mapping exA11 exA11 exS11 rfl (-5)
    (by decide) (by decide) (by decide)

/-! ## C10: index safety of the slider range -/

/-- C10: with an even height axis, the slider minimum `h = -H` maps to
array index `2H = shape2`, which is out of bounds, so `onslide` at the
minimum raises; with an odd height axis the full slider range `[-H, H]`
is index-safe. -/
theorem slider_min_index_safety {α : Type} (a b : Array3 α) (s : TomoState α)
    (hinit : Tomographyplot.init a b = Except.ok s) :
    s.slider.min = -(s.height : ℤ)
    ∧ (a.shape2 % 2 = 0 →
        Tomographyplot.onslide s s.slider.min
          = Except.error "IndexError: index out of bounds")
    ∧ (a.shape2 % 2 = 1 →
        ∀ h : ℤ, -(s.height : ℤ) ≤ h → h ≤ (s.height : ℤ) →
          (Tomographyplot.onslide s h).isOk = true) := by
  obtain ⟨hsh, hcap, hnorm, hh, hslider, _⟩ := init_ok_fields hinit
  have hsh2 : b.shape2 = a.shape2 := by
    have := congrArg (fun p : Nat × Nat × Nat => p.2.2) hsh
    simpa [Array3.shape] using this
  have hmin : s.slider.min = -(s.height : ℤ) := by rw [hslider]
  refine ⟨hmin, ?_, ?_⟩
  · intro heven
    rw [hmin]
    unfold Tomographyplot.onslide
    rw [hnorm, npIndex_none_of_ge (by omega) (by omega)]
  · intro hodd h h1 h2
    unfold Tomographyplot.onslide
    rw [hnorm, npIndex_of_nonneg (by omega) (by omega)]
    simp [Except.isOk, Except.toBool]

/-- Witness for C10: the even-height volume `exA10` (`shape2 = 10`),
where the slider minimum errors out. -/
theorem slider_min_index_safety_witness :
    exS10.slider.min = -(exS10.height : ℤ)
    ∧ (exA10.shape2 % 2 = 0 →
        Tomographyplot.onslide exS10 exS10.slider.min
          = Except.error "IndexError: index out of bounds")
    ∧ (exA10.shape2 % 2 = 1 →
        ∀ h : ℤ, -(exS10.height : ℤ) ≤ h → h ≤ (exS10.height : ℤ) →
          (Tomographyplot.onslide exS10 h).isOk = true) :=
  slider_min_index_safety exA10 exA10 exS10 rfl

/-! ## C7: the clear action restores the pristine profile panel -/

/-- Lemma: `init_vertical_plot` always leaves the profile panel pristine. -/
theorem init_vertical_plot_ax2 {α : Type} (s : TomoState α) :
    (Tomographyplot.init_vertical_plot s).ax2 = emptyProfile s.height := by
  unfold Tomographyplot.init_vertical_plot emptyProfile Ax2State.cla
  by_cases hl : 0 < s.ax2.lines.length
  · simp [hl]
  · have hnil : s.ax2.lines = [] := by
      cases hx : s.ax2.lines
      · rfl
      · rw [hx] at hl; simp at hl
    simp [hl, hnil]

/-- C7: invoking the clear action (`init_vertical_plot`, bound to the
clear button) from any state empties the profile panel and restores its
title, axis labels and y-limits `(-H, H)` to the values construction
gave them. -/
theorem clear_resets_profile_panel (α : Type) :
    (∀ s : TomoState α,
        (Tomographyplot.init_vertical_plot s).ax2 = emptyProfile s.height
        ∧ (Tomographyplot.init_vertical_plot s).ax2.lines = [])
    ∧ (∀ (a b : Array3 α) (s0 : TomoState α),
        Tomographyplot.init a b = Except.ok s0 →
        s0.ax2 = emptyProfile s0.height) := by
  constructor
  · intro s
    refine ⟨init_vertical_plot_ax2 s, ?_⟩
    rw [init_vertical_plot_ax2 s]
    rfl
  · intro a b s0 h0
    exact (init_ok_fields h0).2.2.2.2.2.2.2.1

/-- Witness for C7: concrete clear on a dirtied state and the pristine
construction state of `exA10`. -/
theorem clear_resets_profile_panel_witness :
    ((Tomographyplot.init_vertical_plot exS10).ax2 = emptyProfile exS10.height
      ∧ (Tomographyplot.init_vertical_plot exS10).ax2.lines = [])
    ∧ exS10.ax2 = emptyProfile exS10.height :=
  ⟨(clear_resets_profile_panel Int).1 exS10,
    (clear_resets_profile_panel Int).2 exA10 exA10 exS10 rfl⟩

/-! ## C8: the five-point y-tick scheme (corrected) -/

/-- Counterexample to C8 as stated: at `H = 5` (volume `exA10`,
`shape2 = 10`) the second tick label is `-5 // 2 = -3` (Python floor
division), not `-(H/2)`, so the five labels are not the symmetric set
`{-H, -H/2, 0, H/2, H}`. -/
theorem yticklabels_counterexample :
    Tomographyplot.init exA10 exA10 = Except.ok exS10
    ∧ exS10.ax3.yticklabels = [-5, -3, 0, 2, 5]
    ∧ exS10.ax3.yticklabels ≠ [-5, -2, 0, 2, 5]
    ∧ -(exS10.ax3.yticklabels.getD 1 0) ≠ exS10.ax3.yticklabels.getD 3 0 :=
  ⟨rfl, by decide, by decide, by decide⟩

/-- C8 (amended): construction gives both slice panels the tick labels
`[-H, (-H) fdiv 2, 0, H fdiv 2, H]` (Python floor division) at pixel
positions `[0, H/2, H, 1.5H, 2H]`; the label set is symmetric when `H`
is even. -/
theorem yticklabels_formula {α : Type} (a b : Array3 α) (s : TomoState α)
    (hinit : Tomographyplot.init a b = Except.ok s) :
    s.ax3.yticklabels
        = [-(s.height : ℤ), Int.fdiv (-(s.height : ℤ)) 2, 0,
           Int.fdiv (s.height : ℤ) 2, (s.height : ℤ)]
    ∧ s.ax3.yticks
        = [0, (s.height : ℚ) / 2, (s.height : ℚ),
           (s.height : ℚ) + (s.height : ℚ) / 2, (s.height : ℚ) * 2]
    ∧ s.ax4.yticklabels = s.ax3.yticklabels
    ∧ s.ax4.yticks = s.ax3.yticks
    ∧ (s.height % 2 = 0 →
        Int.fdiv (-(s.height : ℤ)) 2 = -(Int.fdiv (s.height : ℤ) 2)) := by
  obtain ⟨hsh, hcap, hnorm, hh, hslider, hcb, hax1, hax2, hax3, hax4, _⟩ :=
    init_ok_fields hinit
  refine ⟨by rw [hax3], by rw [hax3], by rw [hax3, hax4], by rw [hax3, hax4], ?_⟩
  intro heven
  obtain ⟨k, hk⟩ : ∃ k, s.height = 2 * k := ⟨s.height / 2, by omega⟩
  have h1 : -(s.height : ℤ) = 2 * (-(k : ℤ)) := by rw [hk]; push_cast; ring
  have h2 : (s.height : ℤ) = 2 * (k : ℤ) := by rw [hk]; push_cast; ring
  rw [h1, h2, Int.mul_fdiv_cancel_left _ (by norm_num),
    Int.mul_fdiv_cancel_left _ (by norm_num)]

/-! ## C2: label index resolution in `DataViewer.onslide` -/

/-- C2: for every slider value `h` in the range `[1, len(slc_list) - 1]`
built at construction, `onslide` resolves the SLC label at list index
`h` and the phase and wavenumber labels at list index `h - 1`. -/
theorem dv_onslide_label_indices {α : Type} (slc phase kz : List String)
    (st1 st2 st3 : Array3 α) (h : ℤ)
    (hlo : 1 ≤ h) (hhi : h ≤ (slc.length : ℤ) - 1)
    (hp : phase.length = slc.length) (hk : kz.length = slc.length)
    (hs1 : slc.length ≤ st1.shape2) (hs2 : slc.length ≤ st2.shape2)
    (hs3 : slc.length ≤ st3.shape2) :
    (DataViewer.init slc phase kz st1 st2 st3).slider
        = { min := 1, max := (slc.length : ℤ) - 1, step := 1 }
    ∧ (DataViewer.onslide (DataViewer.init slc phase kz st1 st2 st3) h).map
        (fun t => (t.ax1.title, t.ax2.title, t.ax3.title))
      = Except.ok
          ("SLC intensity: " ++ basename (slc.getD h.toNat ""),
           "phase: " ++ basename (phase.getD (h.toNat - 1) ""),
           "wavenumber: " ++ basename (kz.getD (h.toNat - 1) "")) := by
  refine ⟨rfl, ?_⟩
  have hsub : (h - 1).toNat = h.toNat - 1 := by omega
  unfold DataViewer.onslide
  rw [show (DataViewer.init slc phase kz st1 st2 st3).slc_list = slc from rfl,
    show (DataViewer.init slc phase kz st1 st2 st3).phase_list = phase from rfl,
    show (DataViewer.init slc phase kz st1 st2 st3).kz_list = kz from rfl,
    show (DataViewer.init slc phase kz st1 st2 st3).slc_stack = st1 from rfl,
    show (DataViewer.init slc phase kz st1 st2 st3).phase_stack = st2 from rfl,
    show (DataViewer.init slc phase kz st1 st2 st3).kz_stack = st3 from rfl,
    pyListGet_eq slc h "" (by omega) (by omega),
    pyListGet_eq phase (h - 1) "" (by omega) (by omega),
    pyListGet_eq kz (h - 1) "" (by omega) (by omega),
    npIndex_of_nonneg (by omega) (by omega),
    npIndex_of_nonneg (by omega) (by omega),
    npIndex_of_nonneg (by omega) (by omega), hsub]
  simp [Except.map]

/-- Witness for C2 at two-element lists and slider value `h = 1`. -/
theorem dv_onslide_label_indices_witness :
    (DataViewer.init exSlc exPhase exKz exStk exStk exStk).slider
        = { min := 1, max := (exSlc.length : ℤ) - 1, step := 1 }
    ∧ (DataViewer.onslide (DataViewer.init exSlc exPhase exKz exStk exStk exStk) 1).map
        (fun t => (t.ax1.title, t.ax2.title, t.ax3.title))
      = Except.ok
          ("SLC intensity: " ++ basename (exSlc.getD (1 : ℤ).toNat ""),
           "phase: " ++ basename (exPhase.getD ((1 : ℤ).toNat - 1) ""),
           "wavenumber: " ++ basename (exKz.getD ((1 : ℤ).toNat - 1) "")) :=
  dv_onslide_label_indices exSlc exPhase exKz exStk exStk exStk 1
    (by decide) (by decide) (by decide) (by decide)
    (by decide) (by decide) (by decide)

/-- Witness for C8 (amended) at the concrete volume `exA10`. -/
theorem yticklabels_formula_witness :
    exS10.ax3.yticklabels
        = [-(exS10.height : ℤ), Int.fdiv (-(exS10.height : ℤ)) 2, 0,
           Int.fdiv (exS10.height : ℤ) 2, (exS10.height : ℤ)]
    ∧ exS10.ax3.yticks
        = [0, (exS10.height : ℚ) / 2, (exS10.height : ℚ),
           (exS10.height : ℚ) + (exS10.height : ℚ) / 2, (exS10.height : ℚ) * 2]
    ∧ exS10.ax4.yticklabels = exS10.ax3.yticklabels
    ∧ exS10.ax4.yticks = exS10.ax3.yticks
    ∧ (exS10.height % 2 = 0 →
        Int.fdiv (-(exS10.height : ℤ)) 2 = -(Int.fdiv (exS10.height : ℤ) 2)) :=
  yticklabels_formula exA10 exA10 exS10 rfl

/-! ## Unfolding lemmas for `onclick` -/

/-- A fully processable in-panel click reduces to `clickStep`. -/
theorem onclick_eq_clickStep {α : Type} (s : TomoState α) (e : Event)
    (he : e.inax1 = true) {azV rgV azN rgN : Nat}
    (h1 : npIndex s.capon_bf_abs.shape0 (pyInt e.ydata) = some azV)
    (h2 : npIndex s.capon_bf_abs.shape1 (pyInt e.xdata) = some rgV)
    (h3 : npIndex s.caponnorm.shape0 (pyInt e.ydata) = some azN)
    (h4 : npIndex s.caponnorm.shape1 (pyInt e.xdata) = some rgN) :
    Tomographyplot.onclick s e
      = Except.ok (clickStep s e azV rgV azN rgN) := by
  by_cases hc : s.checkbox
  all_goals
    unfold Tomographyplot.onclick clickStep clickLine
      Tomographyplot.reset_crosshair Tomographyplot.init_vertical_plot
  all_goals simp only [he, hc, if_true, Bool.false_eq_true, if_false,
    Bool.not_eq_true, h1, h2, h3, h4]

/-- The state `clickStep` produces, projected field by field. -/
theorem clickStep_proj {α : Type} (s : TomoState α) (e : Event)
    (azV rgV azN rgN : Nat) :
    (clickStep s e azV rgV azN rgN).capon_bf_abs = s.capon_bf_abs
    ∧ (clickStep s e azV rgV azN rgN).caponnorm = s.caponnorm
    ∧ (clickStep s e azV rgV azN rgN).height = s.height
    ∧ (clickStep s e azV rgV azN rgN).checkbox = s.checkbox
    ∧ (clickStep s e azV rgV azN rgN).lver_x = pyInt e.xdata
    ∧ (clickStep s e azV rgV azN rgN).lhor_y = pyInt e.ydata
    ∧ (clickStep s e azV rgV azN rgN).ax2.lines
        = (if s.checkbox then s.ax2.lines else []) ++ [clickLine s e azV rgV] := by
  by_cases hc : s.checkbox
  · unfold clickStep Tomographyplot.reset_crosshair
    simp [hc]
  · unfold clickStep Tomographyplot.reset_crosshair
      Tomographyplot.init_vertical_plot Ax2State.cla
    by_cases hl : 0 < s.ax2.lines.length
    · simp [hc, hl]
    · have hnil : s.ax2.lines = [] := by
        cases hx : s.ax2.lines
        · rfl
        · rw [hx] at hl; simp at hl
      simp [hc, hl, hnil]

/-- Lemma: `init_vertical_plot` does not change the half-height. -/
theorem init_vertical_plot_height {α : Type} (s : TomoState α) :
    (Tomographyplot.init_vertical_plot s).height = s.height := rfl

/-- With stacking disabled, `clickStep` leaves exactly the pristine
profile panel with the one new line on it. -/
theorem clickStep_ax2_nostack {α : Type} (s : TomoState α) (e : Event)
    (azV rgV azN rgN : Nat) (hcb : s.checkbox = false) :
    (clickStep s e azV rgV azN rgN).ax2
      = { lines := [clickLine s e azV rgV]
          title := "vertical point profiles"
          xlabel := "reflectivity"
          ylabel := "height [m]"
          ylim := (-(s.height : ℤ), (s.height : ℤ)) } := by
  unfold clickStep Tomographyplot.reset_crosshair
  simp [hcb, init_vertical_plot_ax2, init_vertical_plot_height, emptyProfile]

/-- Lemma: `clickLine` only depends on the volume and the half-height. -/
theorem clickLine_congr {α : Type} {s t : TomoState α} (e : Event)
    (azV rgV : Nat) (hc : t.capon_bf_abs = s.capon_bf_abs)
    (hh : t.height = s.height) :
    clickLine t e azV rgV = clickLine s e azV rgV := by
  unfold clickLine
  rw [hc, hh]

/-! ## C4: click truncation, crosshair update, profile extraction -/

/-- C4: for every in-panel click at fractional position `(x, y)` whose
truncated coordinates resolve, `onclick` truncates (not rounds) the
position to `(rg, az)`, repositions the crosshair to exactly `(rg, az)`,
and extracts the vertical profile `capon_bf_abs[az, rg, :]` of length
`shape[2]` (plotted flipped). -/
theorem onclick_truncates_and_extracts {α : Type} (s : TomoState α) (e : Event)
    (he : e.inax1 = true) (azV rgV azN rgN : Nat)
    (h1 : npIndex s.capon_bf_abs.shape0 (pyInt e.ydata) = some azV)
    (h2 : npIndex s.capon_bf_abs.shape1 (pyInt e.xdata) = some rgV)
    (h3 : npIndex s.caponnorm.shape0 (pyInt e.ydata) = some azN)
    (h4 : npIndex s.caponnorm.shape1 (pyInt e.xdata) = some rgN) :
    (∀ q : ℚ, 0 ≤ q → pyInt q = Int.floor q)
    ∧ (∀ q : ℚ, q < 0 → pyInt q = -(Int.floor (-q)))
    ∧ (Tomographyplot.onclick s e).map
        (fun t => (t.lver_x, t.lhor_y,
          t.ax2.lines.getLast?.map (fun L => L.xdata.reverse),
          t.ax2.lines.getLast?.map (fun L => L.xdata.length)))
      = Except.ok (pyInt e.xdata, pyInt e.ydata,
          some (List.ofFn (fun k : Fin s.capon_bf_abs.shape2 =>
            s.capon_bf_abs.data azV rgV k.val)),
          some s.capon_bf_abs.shape2) := by
  refine ⟨fun q hq => pyInt_of_nonneg hq, fun q hq => pyInt_of_neg hq, ?_⟩
  rw [onclick_eq_clickStep s e he h1 h2 h3 h4]
  obtain ⟨-, -, -, -, hx, hy, hlines⟩ := clickStep_proj s e azV rgV azN rgN
  simp only [Except.map, hx, hy, hlines, List.getLast?_concat]
  unfold clickLine
  simp

/-- Witness for C4: a click at `(3/2, 1/2)` on `exS11`, truncating to
`(1, 0)` (not rounding to `(2, 1)`). -/
theorem onclick_truncates_and_extracts_witness :
    (∀ q : ℚ, 0 ≤ q → pyInt q = Int.floor q)
    ∧ (∀ q : ℚ, q < 0 → pyInt q = -(Int.floor (-q)))
    ∧ (Tomographyplot.onclick exS11 exE2).map
        (fun t => (t.lver_x, t.lhor_y,
          t.ax2.lines.getLast?.map (fun L => L.xdata.reverse),
          t.ax2.lines.getLast?.map (fun L => L.xdata.length)))
      = Except.ok (pyInt exE2.xdata, pyInt exE2.ydata,
          some (List.ofFn (fun k : Fin exS11.capon_bf_abs.shape2 =>
            exS11.capon_bf_abs.data 0 1 k.val)),
          some exS11.capon_bf_abs.shape2) :=
  onclick_truncates_and_extracts exS11 exE2 rfl 0 1 0 1
    (by decide) (by decide) (by decide) (by decide)

/-! ## C6: idempotence of clicking with stacking disabled -/

/-- C6: with stacking disabled, clicking the same coordinate twice
leaves the profile panel with exactly one line after each click, and the
panel state after the second click equals the state after the first. -/
theorem onclick_idempotent_no_stacking {α : Type} (s : TomoState α) (e : Event)
    (hcb : s.checkbox = false) (he : e.inax1 = true)
    (azV rgV azN rgN : Nat)
    (h1 : npIndex s.capon_bf_abs.shape0 (pyInt e.ydata) = some azV)
    (h2 : npIndex s.capon_bf_abs.shape1 (pyInt e.xdata) = some rgV)
    (h3 : npIndex s.caponnorm.shape0 (pyInt e.ydata) = some azN)
    (h4 : npIndex s.caponnorm.shape1 (pyInt e.xdata) = some rgN) :
    ((Tomographyplot.onclick s e).bind
        (fun t => Tomographyplot.onclick t e)).map (fun t => t.ax2)
      = (Tomographyplot.onclick s e).map (fun t => t.ax2)
    ∧ (Tomographyplot.onclick s e).map (fun t => t.ax2.lines.length)
        = Except.ok 1
    ∧ ((Tomographyplot.onclick s e).bind
        (fun t => Tomographyplot.onclick t e)).map (fun t => t.ax2.lines.length)
      = Except.ok 1 := by
  obtain ⟨pc, pn, ph, pcb, -, -, -⟩ := clickStep_proj s e azV rgV azN rgN
  have h1' : npIndex (clickStep s e azV rgV azN rgN).capon_bf_abs.shape0
      (pyInt e.ydata) = some azV := by rw [pc]; exact h1
  have h2' : npIndex (clickStep s e azV rgV azN rgN).capon_bf_abs.shape1
      (pyInt e.xdata) = some rgV := by rw [pc]; exact h2
  have h3' : npIndex (clickStep s e azV rgV azN rgN).caponnorm.shape0
      (pyInt e.ydata) = some azN := by rw [pn]; exact h3
  have h4' : npIndex (clickStep s e azV rgV azN rgN).caponnorm.shape1
      (pyInt e.xdata) = some rgN := by rw [pn]; exact h4
  have hcb' : (clickStep s e azV rgV azN rgN).checkbox = false := by
    rw [pcb]; exact hcb
  have step1 := onclick_eq_clickStep s e he h1 h2 h3 h4
  have step2 := onclick_eq_clickStep (clickStep s e azV rgV azN rgN) e
    he h1' h2' h3' h4'
  have hax1 := clickStep_ax2_nostack s e azV rgV azN rgN hcb
  have hax2 := clickStep_ax2_nostack (clickStep s e azV rgV azN rgN) e
    azV rgV azN rgN hcb'
  have hline : clickLine (clickStep s e azV rgV azN rgN) e azV rgV
      = clickLine s e azV rgV := clickLine_congr e azV rgV pc ph
  rw [step1]
  simp [Except.bind, Except.map, step2, hax1, hax2, hline, ph]

/-- Witness for C6: double click at `(1/2, 1/2)` on `exS11n`
(stacking disabled). -/
theorem onclick_idempotent_no_stacking_witness :
    ((Tomographyplot.onclick exS11n exE1).bind
        (fun t => Tomographyplot.onclick t exE1)).map (fun t => t.ax2)
      = (Tomographyplot.onclick exS11n exE1).map (fun t => t.ax2)
    ∧ (Tomographyplot.onclick exS11n exE1).map (fun t => t.ax2.lines.length)
        = Except.ok 1
    ∧ ((Tomographyplot.onclick exS11n exE1).bind
        (fun t => Tomographyplot.onclick t exE1)).map
          (fun t => t.ax2.lines.length)
      = Except.ok 1 :=
  onclick_idempotent_no_stacking exS11n exE1 rfl rfl 0 0 0 0
    (by decide) (by decide) (by decide) (by decide)

/-! ## Decimal label formatting: parse-back correctness and injectivity -/

theorem digitChar_facts : ∀ d, d < 10 → digitVal (Nat.digitChar d) = d
    ∧ Nat.digitChar d ≠ '-' ∧ Nat.digitChar d ≠ ';' := by decide

theorem natCharsAux_parse (fuel : Nat) : ∀ n, n ≤ fuel → ∀ a : Nat,
    (natCharsAux fuel n).foldl (fun x c => x * 10 + digitVal c) a
      = a * 10 ^ (natCharsAux fuel n).length + n := by
  induction fuel with
  | zero =>
    intro n hn a
    have h0 : n = 0 := by omega
    subst h0
    simp [natCharsAux]
  | succ fuel ih =>
    intro n hn a
    by_cases h0 : n = 0
    · subst h0
      simp [natCharsAux]
    · unfold natCharsAux
      rw [if_neg h0, List.foldl_append, List.length_append]
      have hdiv : n / 10 ≤ fuel := by
        have hlt : n / 10 < n := Nat.div_lt_self (Nat.pos_of_ne_zero h0)
          (by norm_num)
        omega
      rw [ih (n / 10) hdiv a]
      simp only [List.foldl_cons, List.foldl_nil, List.length_cons,
        List.length_nil]
      rw [(digitChar_facts (n % 10) (by omega)).1]
      generalize (natCharsAux fuel (n / 10)).length = L
      have hmod : n / 10 * 10 + n % 10 = n := by omega
      calc (a * 10 ^ L + n / 10) * 10 + n % 10
          = a * (10 ^ L * 10) + (n / 10 * 10 + n % 10) := by ring
        _ = a * 10 ^ (L + 1 + 0) + n := by rw [hmod, pow_succ]

theorem parseNat_natStrChars (n : Nat) : parseNat (natStrChars n) = n := by
  unfold parseNat natStrChars
  rw [natCharsAux_parse n n le_rfl 0]
  simp

theorem parseNat_replicate_zero (k : Nat) (l : List Char) :
    parseNat (List.replicate k '0' ++ l) = parseNat l := by
  unfold parseNat
  rw [List.foldl_append]
  have hz : List.foldl (fun x c => x * 10 + digitVal c) 0
      (List.replicate k '0') = 0 := by
    induction k with
    | zero => rfl
    | succ k ih => rw [List.replicate_succ]; simpa [digitVal] using ih
  rw [hz]

theorem parseNat_padZeros (w : Nat) (l : List Char) :
    parseNat (padZeros w l) = parseNat l := by
  unfold padZeros
  exact parseNat_replicate_zero _ _

theorem natCharsAux_mem (fuel : Nat) : ∀ n c, c ∈ natCharsAux fuel n →
    ∃ d, d < 10 ∧ c = Nat.digitChar d := by
  induction fuel with
  | zero => intro n c hc; simp [natCharsAux] at hc
  | succ fuel ih =>
    intro n c hc
    unfold natCharsAux at hc
    by_cases h0 : n = 0
    · rw [if_pos h0] at hc; simp at hc
    · rw [if_neg h0] at hc
      rcases List.mem_append.mp hc with h | h
      · exact ih _ _ h
      · simp at h
        exact ⟨n % 10, by omega, h⟩

theorem padNat_ne_dash {w n : Nat} {c : Char}
    (hc : c ∈ padZeros w (natStrChars n)) : c ≠ '-' := by
  unfold padZeros natStrChars at hc
  rcases List.mem_append.mp hc with h | h
  · rw [List.eq_of_mem_replicate h]; decide
  · obtain ⟨d, hd, rfl⟩ := natCharsAux_mem n n c h
    exact (digitChar_facts d hd).2.1

theorem padNat_ne_semi {w n : Nat} {c : Char}
    (hc : c ∈ padZeros w (natStrChars n)) : c ≠ ';' := by
  unfold padZeros natStrChars at hc
  rcases List.mem_append.mp hc with h | h
  · rw [List.eq_of_mem_replicate h]; decide
  · obtain ⟨d, hd, rfl⟩ := natCharsAux_mem n n c h
    exact (digitChar_facts d hd).2.2

theorem intFmt03_ne_semi {z : ℤ} {c : Char} (hc : c ∈ intFmt03 z) :
    c ≠ ';' := by
  unfold intFmt03 at hc
  by_cases hz : z < 0
  · rw [if_pos hz] at hc
    rcases List.mem_cons.mp hc with rfl | h
    · decide
    · exact padNat_ne_semi h
  · rw [if_neg hz] at hc
    exact padNat_ne_semi hc

theorem parseNat_intFmt03 {z : ℤ} (hz : 0 ≤ z) :
    parseNat (intFmt03 z) = z.toNat := by
  unfold intFmt03
  rw [if_neg (by omega), parseNat_padZeros, parseNat_natStrChars]

theorem intFmt03_inj {a b : ℤ} (h : intFmt03 a = intFmt03 b) : a = b := by
  by_cases ha : a < 0 <;> by_cases hb : b < 0
  · unfold intFmt03 at h
    rw [if_pos ha, if_pos hb] at h
    have h3 := congrArg parseNat (List.cons.inj h).2
    rw [parseNat_padZeros, parseNat_padZeros, parseNat_natStrChars,
      parseNat_natStrChars] at h3
    omega
  · exfalso
    unfold intFmt03 at h
    rw [if_pos ha, if_neg hb] at h
    exact padNat_ne_dash (h ▸ List.mem_cons_self '-' _) rfl
  · exfalso
    unfold intFmt03 at h
    rw [if_neg ha, if_pos hb] at h
    exact padNat_ne_dash (h.symm ▸ List.mem_cons_self '-' _) rfl
  · have h3 := congrArg parseNat h
    rw [parseNat_intFmt03 (by omega), parseNat_intFmt03 (by omega)] at h3
    omega

theorem takeWhile_semi (l r : List Char) (hl : ∀ c ∈ l, c ≠ ';') :
    (l ++ ';' :: r).takeWhile (fun c => c != ';') = l
    ∧ (l ++ ';' :: r).dropWhile (fun c => c != ';') = ';' :: r := by
  induction l with
  | nil => constructor <;> simp
  | cons c t ih =>
    have hc : c ≠ ';' := hl c (List.mem_cons_self _ _)
    have ih2 := ih (fun x hx => hl x (List.mem_cons_of_mem _ hx))
    constructor
    · simp [List.takeWhile_cons, hc, ih2.1]
    · simp [List.dropWhile_cons, hc, ih2.2]

theorem append_semi_inj {l1 l2 r1 r2 : List Char}
    (hl1 : ∀ c ∈ l1, c ≠ ';') (hl2 : ∀ c ∈ l2, c ≠ ';')
    (h : l1 ++ ';' :: r1 = l2 ++ ';' :: r2) : l1 = l2 ∧ r1 = r2 := by
  have ht := congrArg (List.takeWhile (fun c => c != ';')) h
  have hd := congrArg (List.dropWhile (fun c => c != ';')) h
  rw [(takeWhile_semi l1 r1 hl1).1, (takeWhile_semi l2 r2 hl2).1] at ht
  rw [(takeWhile_semi l1 r1 hl1).2, (takeWhile_semi l2 r2 hl2).2] at hd
  exact ⟨ht, (List.cons.inj hd).2⟩

/-- The profile-line label determines the click coordinates. -/
theorem clickLabel_inj {a b c d : ℤ} (h : clickLabel a b = clickLabel c d) :
    a = c ∧ b = d := by
  unfold clickLabel at h
  have h0 : "rg: ".data ++ (intFmt03 a ++ (';' :: (" az: ".data ++ intFmt03 b)))
      = "rg: ".data ++ (intFmt03 c ++ (';' :: (" az: ".data ++ intFmt03 d))) := by
    have h1 := congrArg String.data h
    simpa [List.append_assoc] using h1
  have h1 := List.append_cancel_left h0
  obtain ⟨hf, hr⟩ := append_semi_inj
    (fun x hx => intFmt03_ne_semi hx) (fun x hx => intFmt03_ne_semi hx) h1
  have h2 := List.append_cancel_left hr
  exact ⟨intFmt03_inj hf, intFmt03_inj h2⟩

/-! ## C5: profile accumulation under the stacking checkbox (corrected) -/

theorem clickOK_elim {α : Type} {s : TomoState α} {e : Event}
    (h : clickOK s e) :
    e.inax1 = true ∧ ∃ azV rgV azN rgN,
      npIndex s.capon_bf_abs.shape0 (pyInt e.ydata) = some azV
      ∧ npIndex s.capon_bf_abs.shape1 (pyInt e.xdata) = some rgV
      ∧ npIndex s.caponnorm.shape0 (pyInt e.ydata) = some azN
      ∧ npIndex s.caponnorm.shape1 (pyInt e.xdata) = some rgN := by
  obtain ⟨he, hb1, hb2, hb3, hb4⟩ := h
  obtain ⟨azV, h1⟩ := Option.isSome_iff_exists.mp hb1
  obtain ⟨rgV, h2⟩ := Option.isSome_iff_exists.mp hb2
  obtain ⟨azN, h3⟩ := Option.isSome_iff_exists.mp hb3
  obtain ⟨rgN, h4⟩ := Option.isSome_iff_exists.mp hb4
  exact ⟨he, azV, rgV, azN, rgN, h1, h2, h3, h4⟩

theorem clickOK_congr {α : Type} {s t : TomoState α} (e : Event)
    (hc : t.capon_bf_abs = s.capon_bf_abs) (hn : t.caponnorm = s.caponnorm)
    (h : clickOK s e) : clickOK t e := by
  unfold clickOK at h ⊢
  rw [hc, hn]
  exact h

/-- Folding processable clicks over a stacking-enabled state succeeds
and appends one labelled line per click. -/
theorem onclicks_ok_stacking {α : Type} (es : List Event) (s : TomoState α)
    (hcb : s.checkbox = true) (hok : ∀ e ∈ es, clickOK s e) :
    ∃ t, Tomographyplot.onclicks s es = Except.ok t
      ∧ t.ax2.lines.map Line.label
          = s.ax2.lines.map Line.label ++ es.map eventLabel
      ∧ t.checkbox = true
      ∧ t.capon_bf_abs = s.capon_bf_abs
      ∧ t.caponnorm = s.caponnorm := by
  induction es generalizing s with
  | nil => exact ⟨s, rfl, by simp, hcb, rfl, rfl⟩
  | cons e es ih =>
    obtain ⟨he, azV, rgV, azN, rgN, h1, h2, h3, h4⟩ :=
      clickOK_elim (hok e (List.mem_cons_self _ _))
    have step := onclick_eq_clickStep s e he h1 h2 h3 h4
    obtain ⟨pc, pn, ph, pcb, -, -, plines⟩ := clickStep_proj s e azV rgV azN rgN
    have hcb1 : (clickStep s e azV rgV azN rgN).checkbox = true := by
      rw [pcb]; exact hcb
    have hok1 : ∀ e2 ∈ es, clickOK (clickStep s e azV rgV azN rgN) e2 :=
      fun e2 he2 => clickOK_congr e2 pc pn (hok e2 (List.mem_cons_of_mem _ he2))
    obtain ⟨t, ht, hlab, htc, hta, htn⟩ :=
      ih (clickStep s e azV rgV azN rgN) hcb1 hok1
    refine ⟨t, ?_, ?_, htc, by rw [hta, pc], by rw [htn, pn]⟩
    · unfold Tomographyplot.onclicks at ht ⊢
      rw [List.foldlM_cons, step]
      simpa [Except.bind] using ht
    · rw [hlab, plines, hcb]
      simp [clickLine, eventLabel]

/-- The labels of distinct truncated coordinates are distinct. -/
theorem nodup_labels {es : List Event} (h : (es.map eventCoords).Nodup) :
    (es.map eventLabel).Nodup := by
  have hinj : Function.Injective (fun p : ℤ × ℤ => clickLabel p.1 p.2) := by
    intro p q hpq
    obtain ⟨hx, hy⟩ := clickLabel_inj hpq
    exact Prod.ext hx hy
  have h2 := h.map hinj
  simpa [List.map_map, Function.comp, eventLabel, eventCoords] using h2

/-- Counterexample to C5 as stated: two clicks at the identical
position `(1/2, 1/2)` with stacking enabled leave `N = 2` lines whose
labels coincide, so the panel does not bear `N` distinct labels. -/
theorem stacking_duplicate_labels_counterexample :
    (Tomographyplot.onclicks exS11 [exE1, exE1]).map
        (fun t => t.ax2.lines.map Line.label)
      = Except.ok ["rg: 000; az: 000", "rg: 000; az: 000"]
    ∧ (Tomographyplot.onclicks exS11 [exE1, exE1]).map
        (fun t => t.ax2.lines.length) = Except.ok 2
    ∧ ¬ (["rg: 000; az: 000", "rg: 000; az: 000"] : List String).Nodup :=
  ⟨by decide, by decide, by decide⟩

/-- C5 (amended): starting from an empty profile panel with stacking
enabled, `N` processable clicks leave exactly `N` lines, labelled in
click order by the truncated coordinates; the `N` labels are distinct
whenever the truncated coordinate pairs are pairwise distinct.  With
stacking disabled every processable click leaves exactly one line. -/
theorem stacking_click_accumulation (α : Type) :
    (∀ (s : TomoState α) (es : List Event),
        s.checkbox = true → s.ax2.lines = [] → (∀ e ∈ es, clickOK s e) →
        (Tomographyplot.onclicks s es).map
            (fun t => t.ax2.lines.map Line.label)
          = Except.ok (es.map eventLabel)
        ∧ (Tomographyplot.onclicks s es).map (fun t => t.ax2.lines.length)
          = Except.ok es.length
        ∧ ((es.map eventCoords).Nodup → (es.map eventLabel).Nodup))
    ∧ (∀ (s : TomoState α) (e : Event), s.checkbox = false → clickOK s e →
        (Tomographyplot.onclick s e).map (fun t => t.ax2.lines.length)
          = Except.ok 1) := by
  constructor
  · intro s es hcb hnil hok
    obtain ⟨t, ht, hlab, -, -, -⟩ := onclicks_ok_stacking es s hcb hok
    rw [hnil] at hlab
    simp only [List.map_nil, List.nil_append] at hlab
    have hlen : t.ax2.lines.length = es.length := by
      have h2 := congrArg List.length hlab
      simpa using h2
    exact ⟨by rw [ht]; simp [Except.map, hlab],
      by rw [ht]; simp [Except.map, hlen],
      fun hnd => nodup_labels hnd⟩
  · intro s e hcb hok
    obtain ⟨he, azV, rgV, azN, rgN, h1, h2, h3, h4⟩ := clickOK_elim hok
    rw [onclick_eq_clickStep s e he h1 h2 h3 h4]
    simp [Except.map, clickStep_ax2_nostack s e azV rgV azN rgN hcb]

/-- Witness for C5 (amended): two clicks at distinct positions on
`exS11` (stacking enabled), and one click on `exS11n` (stacking
disabled). -/
theorem stacking_click_accumulation_witness :
    ((Tomographyplot.onclicks exS11 [exE1, exE2]).map
        (fun t => t.ax2.lines.map Line.label)
      = Except.ok ([exE1, exE2].map eventLabel)
    ∧ (Tomographyplot.onclicks exS11 [exE1, exE2]).map
        (fun t => t.ax2.lines.length)
      = Except.ok ([exE1, exE2] : List Event).length
    ∧ (([exE1, exE2].map eventCoords).Nodup →
        ([exE1, exE2].map eventLabel).Nodup))
    ∧ (Tomographyplot.onclick exS11n exE1).map
        (fun t => t.ax2.lines.length) = Except.ok 1 :=
  ⟨(stacking_click_accumulation Int).1 exS11 [exE1, exE2] rfl rfl (by decide),
    (stacking_click_accumulation Int).2 exS11n exE1 rfl (by decide)⟩

end Tomography
